import Mathlib

/-!
Verification of `src/examples/monorepo-github/backend/src/main.py`.

The Python file defines a class `BackendApp` whose constructor sets
`name = "Backend Application"` and `version = "1.0.0"`, a method `greet`
returning the f-string `f"Hello from {self.name} v{self.version}"`, and a
method `health_check` returning the dict
`{"status": "healthy", "service": self.name, "version": self.version}`.
The `__main__` block constructs one instance, prints the greeting, then
prints `f"Health: {app.health_check()}"`, and the interpreter exits with
status 0 since nothing raises.

Python dicts with distinct literal string keys are embedded as association
lists in insertion order; `str` of such a dict renders each key and value
with single-quote `repr` (none of the strings here contain characters that
`repr` would escape). Method calls are additionally modelled as state
transformers `state -> result x state` to express that the methods read
`self` but never assign to it.
-/

/-- The `BackendApp` class: its instance attributes `name` and `version`,
both set in `__init__` and never assigned elsewhere. -/
structure BackendApp where
  name : String
  version : String
deriving DecidableEq

/-- `BackendApp()` — the zero-argument constructor `__init__`, which sets
`self.name = "Backend Application"` and `self.version = "1.0.0"`. -/
def BackendApp.construct : BackendApp :=
  ⟨"Backend Application", "1.0.0"⟩

/-- `BackendApp.greet`: `return f"Hello from {self.name} v{self.version}"`. -/
def BackendApp.greet (self : BackendApp) : String :=
  "Hello from " ++ self.name ++ " v" ++ self.version

/-- `BackendApp.health_check`: the dict literal
`{"status": "healthy", "service": self.name, "version": self.version}`
as an association list in insertion order. -/
def BackendApp.health_check (self : BackendApp) : List (String × String) :=
  [("status", "healthy"), ("service", self.name), ("version", self.version)]

/-- A call `app.greet()` as a state transformer: the method body only reads
`self.name` and `self.version`, it contains no assignment, so the post-call
state is the pre-call state. -/
def BackendApp.greetCall (self : BackendApp) : String × BackendApp :=
  (self.greet, self)

/-- A call `app.health_check()` as a state transformer: the method body
builds a fresh dict from `self.name` and `self.version` and contains no
assignment, so the post-call state is the pre-call state. -/
def BackendApp.healthCall (self : BackendApp) : List (String × String) × BackendApp :=
  (self.health_check, self)

/-- `n` successive calls `app.greet()` on the same instance, threading the
instance state through and collecting the returned strings in order. -/
def BackendApp.greetCalls : Nat → BackendApp → List String × BackendApp
  | 0, a => ([], a)
  | n + 1, a =>
    let r := a.greetCall
    let rest := BackendApp.greetCalls n r.2
    (r.1 :: rest.1, rest.2)

/-- `n` successive calls `app.health_check()` on the same instance,
threading the instance state through and collecting the returned dicts in
order. -/
def BackendApp.healthCalls : Nat → BackendApp → List (List (String × String)) × BackendApp
  | 0, a => ([], a)
  | n + 1, a =>
    let r := a.healthCall
    let rest := BackendApp.healthCalls n r.2
    (r.1 :: rest.1, rest.2)

/-- The single-quote character used by Python `repr` of a string. -/
def pyQuote : String := String.singleton (Char.ofNat 39)

/-- Python `repr` of a string containing no characters that need escaping:
the string wrapped in single quotes. -/
def pyStrRepr (s : String) : String := pyQuote ++ s ++ pyQuote

/-- Python `str` of a dict of strings: `repr` of each key and value,
rendered as `\x7bk1: v1, k2: v2, ...\x7d` in insertion order. -/
def pyDictStr (d : List (String × String)) : String :=
  "\x7b" ++ String.intercalate (", ") (d.map (fun kv => pyStrRepr kv.1 ++ ": " ++ pyStrRepr kv.2)) ++ "\x7d"

/-- The lines the `__main__` block prints to standard output, in order:
`print(app.greet())` then `print(f"Health: {app.health_check()}")` for
`app = BackendApp()`. -/
def mainOutput : List String :=
  let app := BackendApp.construct
  [app.greet, "Health: " ++ pyDictStr app.health_check]

/-- The process exit status of the `__main__` block: nothing in it can
raise, so the interpreter exits with 0. -/
def mainExitCode : Nat := 0

/-- One execution of the entry point, as a function of a (discarded) run
token: the output lines and the exit code. -/
def mainRun (_ : Unit) : List String × Nat := (mainOutput, mainExitCode)

/-- C1: for the descriptor produced by `Construct()` (the constructor is
deterministic, so every constructed descriptor is this one), `Greet()`
returns exactly the string `"Hello from Backend Application v1.0.0"`. -/
theorem construct_greet_exact :
    BackendApp.construct.greet = "Hello from Backend Application v1.0.0" := rfl

/-- C2: for the constructed descriptor, `HealthCheck()` returns exactly the
mapping `status = healthy, service = Backend Application, version = 1.0.0`,
whose key list is exactly `status, service, version` (three keys, no
others), and whose value at `status` is the constant `healthy`. -/
theorem construct_health_check_exact :
    BackendApp.construct.health_check =
      [("status", "healthy"), ("service", "Backend Application"), ("version", "1.0.0")] ∧
    BackendApp.construct.health_check.map Prod.fst = ["status", "service", "version"] ∧
    BackendApp.construct.health_check.length = 3 ∧
    BackendApp.construct.health_check.lookup ("status") = some ("healthy") :=
  ⟨rfl, rfl, rfl, rfl⟩

/-- C3: `Construct()` takes no inputs and always yields the descriptor with
`name = "Backend Application"` and `version = "1.0.0"`; it cannot fail, and
`Greet()` and `HealthCheck()` are total on every descriptor — each always
produces a value (both are total functions of the embedding; the Python
bodies contain no raising operation). -/
theorem construct_defaults_total :
    BackendApp.construct.name = "Backend Application" ∧
    BackendApp.construct.version = "1.0.0" ∧
    ∀ a : BackendApp, ∃ s : String, ∃ d : List (String × String),
      a.greet = s ∧ a.health_check = d :=
  ⟨rfl, rfl, fun a => ⟨a.greet, a.health_check, rfl, rfl⟩⟩

/-- C4: the entry point prints exactly two lines, in order the greeting
`Hello from Backend Application v1.0.0` and then `Health: ` followed by the
rendered three-entry health-check record, and exits with status 0. -/
theorem main_entry_point :
    mainOutput =
      ["Hello from Backend Application v1.0.0",
       "Health: \x7b\x27status\x27: \x27healthy\x27, \x27service\x27: \x27Backend Application\x27, \x27version\x27: \x271.0.0\x27\x7d"] ∧
    mainExitCode = 0 :=
  ⟨rfl, rfl⟩

/-- C5: `name` and `version` are immutable after construction — neither
method call changes the instance state — and both derived views are pure
functions of exactly these two fields: any two descriptors agreeing on
`name` and `version` have equal greetings and equal health-check records. -/
theorem fields_immutable_views_pure (a b : BackendApp)
    (hn : a.name = b.name) (hv : a.version = b.version) :
    a.greetCall.2 = a ∧ a.healthCall.2 = a ∧
    a.greet = b.greet ∧ a.health_check = b.health_check := by
  obtain ⟨an, av⟩ := a
  obtain ⟨bn, bv⟩ := b
  simp only at hn hv
  subst hn
  subst hv
  exact ⟨rfl, rfl, rfl, rfl⟩

/-- Witness for C5 at the concretely constructed descriptor. -/
theorem fields_immutable_views_pure_witness :
    BackendApp.construct.greetCall.2 = BackendApp.construct ∧
    BackendApp.construct.healthCall.2 = BackendApp.construct ∧
    BackendApp.construct.greet = BackendApp.construct.greet ∧
    BackendApp.construct.health_check = BackendApp.construct.health_check :=
  fields_immutable_views_pure BackendApp.construct BackendApp.construct rfl rfl

/-- C6: any number of repeated calls of `Greet()` or `HealthCheck()` on the
same instance yields the identical result each time (the list of results of
`n` successive calls is `n` copies of the single-call result), and the
calls leave the instance unchanged. -/
theorem repeated_calls_identical (a : BackendApp) (n : Nat) :
    (BackendApp.greetCalls n a).1 = List.replicate n a.greet ∧
    (BackendApp.greetCalls n a).2 = a ∧
    (BackendApp.healthCalls n a).1 = List.replicate n a.health_check ∧
    (BackendApp.healthCalls n a).2 = a := by
  induction n with
  | zero => exact ⟨rfl, rfl, rfl, rfl⟩
  | succ n ih =>
    obtain ⟨ihg, ihgs, ihh, ihhs⟩ := ih
    refine ⟨?_, ?_, ?_, ?_⟩
    · simp [BackendApp.greetCalls, BackendApp.greetCall, List.replicate, ihg]
    · simp [BackendApp.greetCalls, BackendApp.greetCall, ihgs]
    · simp [BackendApp.healthCalls, BackendApp.healthCall, List.replicate, ihh]
    · simp [BackendApp.healthCalls, BackendApp.healthCall, ihhs]

/-- C7: for every descriptor, `Greet()` is the interpolation of the current
field values into the template: `"Hello from " ++ name ++ " v" ++ version`. -/
theorem greet_interpolation (a : BackendApp) :
    a.greet = "Hello from " ++ a.name ++ " v" ++ a.version := rfl

/-- C8: the two derived views agree: the health-check record's `service`
and `version` entries are the descriptor's fields, and the greeting equals
`"Hello from " ++ record service entry ++ " v" ++ record version entry`. -/
theorem views_agree (a : BackendApp) :
    a.health_check.lookup ("service") = some a.name ∧
    a.health_check.lookup ("version") = some a.version ∧
    a.greet = "Hello from " ++ (a.health_check.lookup ("service")).getD ("") ++
      " v" ++ (a.health_check.lookup ("version")).getD ("") :=
  ⟨rfl, rfl, rfl⟩

/-- C9: for every descriptor, the health-check mapping's keys enumerate in
the fixed insertion order `status, service, version`. -/
theorem health_keys_insertion_order (a : BackendApp) :
    a.health_check.map Prod.fst = ["status", "service", "version"] := rfl

/-- C10: construction is deterministic — any two descriptors produced by
`Construct()` give equal `Greet()` and `HealthCheck()` results — and the
entry point's observable output (lines and exit code) is identical across
any two executions. -/
theorem construction_deterministic (a b : BackendApp)
    (ha : a = BackendApp.construct) (hb : b = BackendApp.construct) :
    a.greet = b.greet ∧ a.health_check = b.health_check ∧
    ∀ u v : Unit, mainRun u = mainRun v := by
  subst ha
  subst hb
  exact ⟨rfl, rfl, fun _ _ => rfl⟩

/-- Witness for C10 at two concretely constructed descriptors. -/
theorem construction_deterministic_witness :
    BackendApp.construct.greet = BackendApp.construct.greet ∧
    BackendApp.construct.health_check = BackendApp.construct.health_check ∧
    ∀ u v : Unit, mainRun u = mainRun v :=
  construction_deterministic BackendApp.construct BackendApp.construct rfl rfl
